import Mathlib

/-!
# Sparkle GPU particle orchestrator: `src/api/gpu_particle.h`

A shallow embedding of the CPU-side declarations of `class GPUParticle`:
the compile-time limits, the two static helpers that round particle counts
to the thread-group width, the parameter structs with their default member
initialisers, the constructor and the two inline toggles.

`unsigned int` is modelled as a natural number below `2 ^ 32`; every
arithmetic operator of the source is followed by an explicit reduction
modulo `2 ^ 32`.  `float` literals are modelled by the exact rational value
of their binary32 rounding.
-/

namespace Sparkle

/-! ## 32-bit unsigned arithmetic -/

/-- Number of values of a C++ `unsigned int` on the targeted platforms. -/
def UINT_SIZE : Nat := 2 ^ 32

/-- Unsigned addition `a + b` with wrap-around. -/
def uadd (a b : Nat) : Nat := (a + b) % UINT_SIZE

/-- Unsigned subtraction `a - b` with wrap-around (for operands below `2 ^ 32`). -/
def usub (a b : Nat) : Nat := (a + UINT_SIZE - b) % UINT_SIZE

/-- Unsigned multiplication `a * b` with wrap-around. -/
def umul (a b : Nat) : Nat := (a * b) % UINT_SIZE

/-- Unsigned division `a / b`.  The source never guards the divisor; a zero
divisor is undefined behaviour there and yields `0` here. -/
def udiv (a b : Nat) : Nat := a / b

/-- Unsigned left shift `a << b` with wrap-around. -/
def ushl (a b : Nat) : Nat := (a <<< b) % UINT_SIZE

/-- Unsigned right shift `a >> b`. -/
def ushr (a b : Nat) : Nat := a >>> b

/-! ## Static members of `GPUParticle` -/

/-- Source: `static unsigned int const kMaxParticleCount = (1u << 18u);` -/
def GPUParticle.kMaxParticleCount : Nat := ushl 1 18

/-- Source: `static unsigned int const kBatchEmitCount = std::max(256u, (kMaxParticleCount >> 4u));` -/
def GPUParticle.kBatchEmitCount : Nat := max 256 (ushr GPUParticle.kMaxParticleCount 4)

/-- The sum `nthreads + kThreadsGroupWidth-1u` as the source evaluates it, left
to right in `unsigned int`.  `kThreadsGroupWidth` is only declared in the
header, so its value is a parameter. -/
def GPUParticle.paddedThreads (kThreadsGroupWidth nthreads : Nat) : Nat :=
  usub (uadd nthreads kThreadsGroupWidth) 1

/-- Source: `GetThreadsGroupCount(nthreads)`, returning
`(nthreads + kThreadsGroupWidth-1u) / kThreadsGroupWidth`. -/
def GPUParticle.GetThreadsGroupCount (kThreadsGroupWidth nthreads : Nat) : Nat :=
  udiv (GPUParticle.paddedThreads kThreadsGroupWidth nthreads) kThreadsGroupWidth

/-- Source: `FloorParticleCount(nparticles)`, returning
`kThreadsGroupWidth * (nparticles / kThreadsGroupWidth)`. -/
def GPUParticle.FloorParticleCount (kThreadsGroupWidth nparticles : Nat) : Nat :=
  umul kThreadsGroupWidth (udiv nparticles kThreadsGroupWidth)

/-! ## Parameter structs -/

/-- Source: `static float constexpr kDefaultSimulationVolumeSize = 256.0f;` -/
def GPUParticle.kDefaultSimulationVolumeSize : ℚ := 256

/-- Source: `enum EmitterType`. -/
inductive EmitterType where
  | EMITTER_POINT
  | EMITTER_DISK
  | EMITTER_SPHERE
  | EMITTER_BALL
  | kNumEmitterType
  deriving DecidableEq, Repr

/-- Source: `enum SimulationVolume`. -/
inductive SimulationVolume where
  | VOLUME_SPHERE
  | VOLUME_BOX
  | VOLUME_NONE
  | kNumSimulationVolume
  deriving DecidableEq, Repr

/-- Source: `struct SimulationParameters_t` with its default member
initialisers.  Every `float` literal of this struct is a dyadic rational that
binary32 represents exactly. -/
structure SimulationParameters_t where
  time_step_factor : ℚ := 1
  min_age : ℚ := 50
  max_age : ℚ := 100
  emitter_type : EmitterType := EmitterType.EMITTER_SPHERE
  emitter_position : List ℚ := [0, 0, 0]
  emitter_direction : List ℚ := [0, 1, 0]
  emitter_radius : ℚ := 32
  bounding_volume : SimulationVolume := SimulationVolume.VOLUME_SPHERE
  bounding_volume_size : ℚ := GPUParticle.kDefaultSimulationVolumeSize
  scattering_factor : ℚ := 1
  vectorfield_factor : ℚ := 1
  curlnoise_factor : ℚ := 16
  curlnoise_scale : ℚ := 128
  velocity_factor : ℚ := 8
  enable_scattering : Bool := false
  enable_vectorfield : Bool := false
  enable_curlnoise : Bool := true
  enable_velocity_control : Bool := true
  deriving DecidableEq, Repr

/-- Source: `enum RenderMode`. -/
inductive RenderMode where
  | RENDERMODE_STRETCHED
  | RENDERMODE_POINTSPRITE
  | kNumRenderMode
  deriving DecidableEq, Repr

/-- Source: `enum ColorMode`. -/
inductive ColorMode where
  | COLORMODE_DEFAULT
  | COLORMODE_GRADIENT
  | kNumColorMode
  deriving DecidableEq, Repr

/-- Source: `struct RenderingParameters_t` with its default member
initialisers.  `0.35f` is not a binary32 value; the field holds the nearest
one, `11744051 / 2 ^ 25`. -/
structure RenderingParameters_t where
  rendermode : RenderMode := RenderMode.RENDERMODE_STRETCHED
  stretched_factor : ℚ := 10
  colormode : ColorMode := ColorMode.COLORMODE_DEFAULT
  birth_gradient : List ℚ := [0, 1, 0, 1]
  death_gradient : List ℚ := [1, 0, 0, 0]
  min_size : ℚ := 3 / 4
  max_size : ℚ := 25
  fading_factor : ℚ := 11744051 / 33554432
  deriving DecidableEq, Repr

/-- A default-initialised `SimulationParameters_t`. -/
def SimulationParameters_t.defaults : SimulationParameters_t := {}

/-- A default-initialised `RenderingParameters_t`. -/
def RenderingParameters_t.defaults : RenderingParameters_t := {}

/-! ## Shader handles and uniform locations -/

/-- Source: the anonymous struct of member `pgm_` (`GLuint` program names). -/
structure Programs where
  emission : Nat
  update_args : Nat
  simulation : Nat
  fill_indices : Nat
  calculate_dp : Nat
  sort_step : Nat
  sort_final : Nat
  render_point_sprite : Nat
  render_stretched_sprite : Nat
  deriving DecidableEq, Repr

/-- Source: `ulocation_.emission` (`GLint` uniform locations). -/
structure EmissionLocations where
  emitCount : Int
  emitterType : Int
  emitterPosition : Int
  emitterDirection : Int
  emitterRadius : Int
  particleMinAge : Int
  particleMaxAge : Int
  deriving DecidableEq, Repr

/-- Source: `ulocation_.simulation`. -/
structure SimulationLocations where
  timeStep : Int
  vectorFieldSampler : Int
  bboxSize : Int
  boundingVolume : Int
  scatteringFactor : Int
  vectorFieldFactor : Int
  curlNoiseFactor : Int
  curlNoiseScale : Int
  velocityFactor : Int
  enableScattering : Int
  enableVectorField : Int
  enableCurlNoise : Int
  enableVelocityControl : Int
  deriving DecidableEq, Repr

/-- Source: `ulocation_.calculate_dp`. -/
structure CalculateDpLocations where
  view : Int
  deriving DecidableEq, Repr

/-- Source: `ulocation_.sort_step`. -/
structure SortStepLocations where
  blockWidth : Int
  maxBlockWidth : Int
  deriving DecidableEq, Repr

/-- Source: `ulocation_.render_point_sprite`. -/
structure PointSpriteLocations where
  mvp : Int
  minParticleSize : Int
  maxParticleSize : Int
  colorMode : Int
  birthGradient : Int
  deathGradient : Int
  fadeCoefficient : Int
  deriving DecidableEq, Repr

/-- Source: `ulocation_.render_stretched_sprite`. -/
structure StretchedSpriteLocations where
  view : Int
  mvp : Int
  colorMode : Int
  birthGradient : Int
  deathGradient : Int
  spriteStretchFactor : Int
  fadeCoefficient : Int
  deriving DecidableEq, Repr

/-- Source: the anonymous struct of member `ulocation_`. -/
structure UniformLocations where
  emission : EmissionLocations
  simulation : SimulationLocations
  calculate_dp : CalculateDpLocations
  sort_step : SortStepLocations
  render_point_sprite : PointSpriteLocations
  render_stretched_sprite : StretchedSpriteLocations
  deriving DecidableEq, Repr

/-! ## The orchestrator object -/

/-- Source: the data members of `class GPUParticle`.  `RandomBuffer` and
`VectorField` are classes of headers outside this file, so they are type
parameters.  `pbuffer_` is a pointer: `none` is `nullptr`. -/
structure GPUParticle (RandomBuffer VectorField : Type) where
  simulation_params_ : SimulationParameters_t
  rendering_params_ : RenderingParameters_t
  num_alive_particles_ : Nat
  pbuffer_ : Option Nat
  randbuffer_ : RandomBuffer
  vectorfield_ : VectorField
  pgm_ : Programs
  ulocation_ : UniformLocations
  gl_indirect_buffer_id_ : Nat
  gl_dp_buffer_id_ : Nat
  gl_sort_indices_buffer_id_ : Nat
  vao_ : Nat
  query_time_ : Nat
  simulated_ : Bool
  enable_sorting_ : Bool
  enable_vectorfield_ : Bool

/-- Source: the constructor `GPUParticle()`.  The members without an entry in
the initialiser list are default-initialised: the two parameter structs get
their default member initialisers, the two collaborators are
default-constructed (`randbuffer`, `vectorfield`), and `pgm_` and `ulocation_`
keep whatever the storage held (`pgm`, `ulocation`). -/
def GPUParticle.ctor {RandomBuffer VectorField : Type}
    (randbuffer : RandomBuffer) (vectorfield : VectorField)
    (pgm : Programs) (ulocation : UniformLocations) :
    GPUParticle RandomBuffer VectorField where
  simulation_params_ := {}
  rendering_params_ := {}
  num_alive_particles_ := 0
  pbuffer_ := none
  randbuffer_ := randbuffer
  vectorfield_ := vectorfield
  pgm_ := pgm
  ulocation_ := ulocation
  gl_indirect_buffer_id_ := 0
  gl_dp_buffer_id_ := 0
  gl_sort_indices_buffer_id_ := 0
  vao_ := 0
  query_time_ := 0
  simulated_ := false
  enable_sorting_ := false
  enable_vectorfield_ := true

/-- Source: `inline void enable_sorting(bool status) { enable_sorting_ = status; }` -/
def GPUParticle.enable_sorting {RandomBuffer VectorField : Type}
    (self : GPUParticle RandomBuffer VectorField) (status : Bool) :
    GPUParticle RandomBuffer VectorField :=
  { self with enable_sorting_ := status }

/-- Source: `inline void enable_vectorfield(bool status) { enable_vectorfield_ = status; }` -/
def GPUParticle.enable_vectorfield {RandomBuffer VectorField : Type}
    (self : GPUParticle RandomBuffer VectorField) (status : Bool) :
    GPUParticle RandomBuffer VectorField :=
  { self with enable_vectorfield_ := status }

/-! ## Stages whose bodies are outside the header -/

/-- Modelled from the spec: the emission stage run by `update`.  The header
only declares `void _emission(unsigned int const count)`; its body and the
emission kernel are not part of the header.  Following section 4.1, the
requested spawn count is capped at the batch limit, and when the remaining
headroom of the pool is smaller than that request only the headroom is
appended.  The result is the live counter after the stage. -/
def GPUParticle._emission (capacity live count : Nat) : Nat :=
  let request := if GPUParticle.kBatchEmitCount < count then GPUParticle.kBatchEmitCount else count
  let headroom := capacity - live
  if headroom < request then live + headroom else live + request

/-- Work an issued `render` hands to the device. -/
inductive DeviceStage where
  | depthSort
  | renderStage
  deriving DecidableEq, Repr

/-- Modelled from the spec: `render(view, viewProj)`, declared in the header
with its body elsewhere.  Following section 4.6: when the simulation has not
run, nothing happens; otherwise the depth sort runs if enabled, then the render
stage, and the "simulated" flag is cleared.  The result is the new object and
the stages issued, in order. -/
def GPUParticle.render {RandomBuffer VectorField : Type}
    (self : GPUParticle RandomBuffer VectorField) :
    GPUParticle RandomBuffer VectorField × List DeviceStage :=
  if self.simulated_ then
    ({ self with simulated_ := false },
      (if self.enable_sorting_ then [DeviceStage.depthSort] else []) ++ [DeviceStage.renderStage])
  else
    (self, [])

/-! ## A concrete object for evaluation -/

/-- Program names as `glCreateProgram` hands them out, `1` to `9`. -/
def Programs.sample : Programs where
  emission := 1
  update_args := 2
  simulation := 3
  fill_indices := 4
  calculate_dp := 5
  sort_step := 6
  sort_final := 7
  render_point_sprite := 8
  render_stretched_sprite := 9

/-- Uniform locations all `-1`, the value `glGetUniformLocation` gives for a
name it does not find. -/
def UniformLocations.sample : UniformLocations where
  emission := ⟨-1, -1, -1, -1, -1, -1, -1⟩
  simulation := ⟨-1, -1, -1, -1, -1, -1, -1, -1, -1, -1, -1, -1, -1⟩
  calculate_dp := ⟨-1⟩
  sort_step := ⟨-1, -1⟩
  render_point_sprite := ⟨-1, -1, -1, -1, -1, -1, -1⟩
  render_stretched_sprite := ⟨-1, -1, -1, -1, -1, -1, -1⟩

/-- An object that was never updated but is far from the constructor's state:
sorting switched on, vector field switched off, and a non-zero live count. -/
def GPUParticle.sample : GPUParticle Unit Unit :=
  { ((GPUParticle.ctor () () Programs.sample UniformLocations.sample).enable_sorting
      true).enable_vectorfield false with num_alive_particles_ := 4096 }

/-! ## Arithmetic lemmas -/

theorem paddedThreads_eq (W n : Nat) (hW : 1 ≤ W) :
    GPUParticle.paddedThreads W n = (n + W - 1) % 2 ^ 32 := by
  unfold GPUParticle.paddedThreads usub uadd UINT_SIZE
  omega

theorem paddedThreads_of_lt (W n : Nat) (hW : 1 ≤ W) (h : n + W - 1 < 2 ^ 32) :
    GPUParticle.paddedThreads W n = n + W - 1 := by
  rw [paddedThreads_eq W n hW, Nat.mod_eq_of_lt h]

theorem groupCount_of_lt (W n : Nat) (hW : 1 ≤ W) (h : n + W - 1 < 2 ^ 32) :
    GPUParticle.GetThreadsGroupCount W n = (n + W - 1) / W := by
  unfold GPUParticle.GetThreadsGroupCount udiv
  rw [paddedThreads_of_lt W n hW h]

/-- The rounded-up quotient covers `n`. -/
theorem le_ceilQuot_mul (W n : Nat) (hW : 1 ≤ W) : n ≤ (n + W - 1) / W * W := by
  have h1 := Nat.div_add_mod (n + W - 1) W
  have h2 := Nat.mod_lt (n + W - 1) (show W > 0 by omega)
  have h3 : W * ((n + W - 1) / W) = (n + W - 1) / W * W := Nat.mul_comm _ _
  omega

/-- The rounded-up quotient is below every group count that covers `n`. -/
theorem ceilQuot_le_of_le_mul (W n g : Nat) (hW : 1 ≤ W) (h : n ≤ g * W) :
    (n + W - 1) / W ≤ g := by
  have hlt : (n + W - 1) / W < g + 1 := by
    rw [Nat.div_lt_iff_lt_mul (show 0 < W by omega)]
    have : (g + 1) * W = g * W + W := by ring
    omega
  omega

/-- The rounded-up quotient is the real-number ceiling of `n / W`. -/
theorem ceil_div_eq (W n : Nat) (hW : 1 ≤ W) :
    ⌈(n : ℚ) / (W : ℚ)⌉₊ = (n + W - 1) / W := by
  have hWq : (0 : ℚ) < (W : ℚ) := by exact_mod_cast hW
  apply le_antisymm
  · rw [Nat.ceil_le, div_le_iff₀ hWq]
    exact_mod_cast le_ceilQuot_mul W n hW
  · apply ceilQuot_le_of_le_mul W n _ hW
    have h := Nat.le_ceil ((n : ℚ) / (W : ℚ))
    rw [div_le_iff₀ hWq] at h
    exact_mod_cast h

theorem floorCount_eq (W n : Nat) (hn : n < 2 ^ 32) :
    GPUParticle.FloorParticleCount W n = W * (n / W) := by
  unfold GPUParticle.FloorParticleCount umul udiv UINT_SIZE
  exact Nat.mod_eq_of_lt (lt_of_le_of_lt (Nat.mul_div_le n W) hn)

theorem kMaxParticleCount_eq : GPUParticle.kMaxParticleCount = 262144 := by decide

theorem kBatchEmitCount_eq : GPUParticle.kBatchEmitCount = 16384 := by decide

/-! ## Dispatch width -/

/-- C1: for a thread-group width `W ≥ 1` and a live count `n ≤ kMaxParticleCount`
with `n + W - 1 < 2 ^ 32`, `GetThreadsGroupCount n` is `⌈n / W⌉`: its groups
cover `n`, no smaller group count covers `n`, and it is `0` exactly when `n`
is `0`. -/
theorem C1_GetThreadsGroupCount_is_ceil (W n : Nat) (hW : 1 ≤ W)
    (hn : n ≤ GPUParticle.kMaxParticleCount) (hsum : n + W - 1 < 2 ^ 32) :
    GPUParticle.GetThreadsGroupCount W n = ⌈(n : ℚ) / (W : ℚ)⌉₊ ∧
    n ≤ GPUParticle.GetThreadsGroupCount W n * W ∧
    (∀ g : Nat, n ≤ g * W → GPUParticle.GetThreadsGroupCount W n ≤ g) ∧
    (GPUParticle.GetThreadsGroupCount W n = 0 ↔ n = 0) := by
  have hg := groupCount_of_lt W n hW hsum
  have hcover := le_ceilQuot_mul W n hW
  refine ⟨?_, ?_, ?_, ?_⟩
  · rw [hg, ceil_div_eq W n hW]
  · rw [hg]; exact hcover
  · intro g hgW
    rw [hg]
    exact ceilQuot_le_of_le_mul W n g hW hgW
  · rw [hg]
    constructor
    · intro h0
      rw [h0] at hcover
      omega
    · intro h0
      subst h0
      apply Nat.div_eq_of_lt
      omega

/-- C1 at `W = 256`, `n = 1000`: four groups. -/
theorem C1_GetThreadsGroupCount_is_ceil_witness :
    1 ≤ 256 ∧ 1000 ≤ GPUParticle.kMaxParticleCount ∧ 1000 + 256 - 1 < 2 ^ 32 ∧
    GPUParticle.GetThreadsGroupCount 256 1000 = 4 ∧
    (GPUParticle.GetThreadsGroupCount 256 1000 = ⌈((1000 : Nat) : ℚ) / ((256 : Nat) : ℚ)⌉₊ ∧
     1000 ≤ GPUParticle.GetThreadsGroupCount 256 1000 * 256 ∧
     (∀ g : Nat, 1000 ≤ g * 256 → GPUParticle.GetThreadsGroupCount 256 1000 ≤ g) ∧
     (GPUParticle.GetThreadsGroupCount 256 1000 = 0 ↔ 1000 = 0)) :=
  ⟨by decide, by decide, by decide, by decide,
    C1_GetThreadsGroupCount_is_ceil 256 1000 (by decide) (by decide) (by decide)⟩

/-- C10: in 32-bit wrap-around arithmetic, for `1 ≤ W < 2 ^ 32` and
`n < 2 ^ 32`, `GetThreadsGroupCount n` is `⌈n / W⌉` if and only if
`n + W - 1 < 2 ^ 32`; otherwise the sum wraps to a value below `W - 1` and the
function returns `0` although `n > 0`, as for `W = 2`, `n = 2 ^ 32 - 1`. -/
theorem C10_GetThreadsGroupCount_wraps (W n : Nat) (hW : 1 ≤ W) (hW32 : W < 2 ^ 32)
    (hn : n < 2 ^ 32) :
    (GPUParticle.GetThreadsGroupCount W n = ⌈(n : ℚ) / (W : ℚ)⌉₊ ↔ n + W - 1 < 2 ^ 32) ∧
    (2 ^ 32 ≤ n + W - 1 →
      GPUParticle.paddedThreads W n < W - 1 ∧
      GPUParticle.GetThreadsGroupCount W n = 0 ∧ 0 < n) ∧
    GPUParticle.GetThreadsGroupCount 2 (2 ^ 32 - 1) = 0 := by
  have hwrap : 2 ^ 32 ≤ n + W - 1 →
      GPUParticle.paddedThreads W n < W - 1 ∧
      GPUParticle.GetThreadsGroupCount W n = 0 ∧ 0 < n := by
    intro hge
    have hp : GPUParticle.paddedThreads W n = n + W - 1 - 2 ^ 32 := by
      rw [paddedThreads_eq W n hW]
      omega
    refine ⟨by omega, ?_, by omega⟩
    unfold GPUParticle.GetThreadsGroupCount udiv
    apply Nat.div_eq_of_lt
    omega
  refine ⟨⟨?_, ?_⟩, hwrap, by decide⟩
  · intro heq
    by_contra hnot
    obtain ⟨_, h0, hpos⟩ := hwrap (by omega)
    rw [h0, ceil_div_eq W n hW] at heq
    have hcover := le_ceilQuot_mul W n hW
    rw [← heq] at hcover
    omega
  · intro hlt
    rw [groupCount_of_lt W n hW hlt, ceil_div_eq W n hW]

/-- C10 at `W = 2`, `n = 2 ^ 32 - 1`: the sum wraps to `0` and no group is
dispatched. -/
theorem C10_GetThreadsGroupCount_wraps_witness :
    1 ≤ 2 ∧ 2 < 2 ^ 32 ∧ 2 ^ 32 - 1 < 2 ^ 32 ∧ 2 ^ 32 ≤ 2 ^ 32 - 1 + 2 - 1 ∧
    GPUParticle.paddedThreads 2 (2 ^ 32 - 1) < 2 - 1 ∧
    GPUParticle.GetThreadsGroupCount 2 (2 ^ 32 - 1) = 0 ∧ 0 < 2 ^ 32 - 1 :=
  ⟨by decide, by decide, by decide, by decide,
    (C10_GetThreadsGroupCount_wraps 2 (2 ^ 32 - 1) (by decide) (by decide) (by decide)).2.1
      (by decide)⟩

/-! ## Pool rounding -/

/-- C2: for `W ≥ 1` and a 32-bit `n`, `FloorParticleCount n` is the largest
multiple of `W` not exceeding `n`: `W` divides it, it is at most `n`, it is
less than `W` below `n`, and it equals `n` exactly when `W` divides `n`. -/
theorem C2_FloorParticleCount_rounds_down (W n : Nat) (hW : 1 ≤ W) (hn : n < 2 ^ 32) :
    W ∣ GPUParticle.FloorParticleCount W n ∧
    GPUParticle.FloorParticleCount W n ≤ n ∧
    n - GPUParticle.FloorParticleCount W n < W ∧
    (∀ m : Nat, W ∣ m → m ≤ n → m ≤ GPUParticle.FloorParticleCount W n) ∧
    (GPUParticle.FloorParticleCount W n = n ↔ W ∣ n) := by
  have hf := floorCount_eq W n hn
  have hdm := Nat.div_add_mod n W
  have hmod := Nat.mod_lt n (show W > 0 by omega)
  refine ⟨?_, ?_, ?_, ?_, ?_⟩
  · rw [hf]; exact Dvd.intro _ rfl
  · rw [hf]; exact Nat.mul_div_le n W
  · rw [hf]; omega
  · rintro m ⟨k, rfl⟩ hle
    rw [hf]
    apply Nat.mul_le_mul_left
    rw [Nat.le_div_iff_mul_le (show 0 < W by omega), Nat.mul_comm]
    exact hle
  · rw [hf]
    constructor
    · intro h
      exact Dvd.intro _ h
    · intro h
      exact Nat.mul_div_cancel' h

/-- C2 at `W = 256`, `n = 1000`: rounded down to `768`. -/
theorem C2_FloorParticleCount_rounds_down_witness :
    1 ≤ 256 ∧ 1000 < 2 ^ 32 ∧ GPUParticle.FloorParticleCount 256 1000 = 768 ∧
    (256 ∣ GPUParticle.FloorParticleCount 256 1000 ∧
     GPUParticle.FloorParticleCount 256 1000 ≤ 1000 ∧
     1000 - GPUParticle.FloorParticleCount 256 1000 < 256 ∧
     (∀ m : Nat, 256 ∣ m → m ≤ 1000 → m ≤ GPUParticle.FloorParticleCount 256 1000) ∧
     (GPUParticle.FloorParticleCount 256 1000 = 1000 ↔ 256 ∣ 1000)) :=
  ⟨by decide, by decide, by decide,
    C2_FloorParticleCount_rounds_down 256 1000 (by decide) (by decide)⟩

/-- C5: for a power of two `W` with `1 ≤ W ≤ 2 ^ 18`, rounding the pool capacity
loses nothing: `FloorParticleCount kMaxParticleCount = kMaxParticleCount`,
which is `262144 = 2 ^ 18`, still a power of two. -/
theorem C5_FloorParticleCount_capacity (W : Nat) (hpow : ∃ k : Nat, W = 2 ^ k)
    (hW : 1 ≤ W) (hle : W ≤ 2 ^ 18) :
    GPUParticle.FloorParticleCount W GPUParticle.kMaxParticleCount
      = GPUParticle.kMaxParticleCount ∧
    GPUParticle.kMaxParticleCount = 262144 ∧
    GPUParticle.FloorParticleCount W GPUParticle.kMaxParticleCount = 2 ^ 18 := by
  obtain ⟨k, rfl⟩ := hpow
  have hk : k ≤ 18 := (Nat.pow_le_pow_iff_right (by decide : 1 < 2)).mp hle
  have hsplit : 2 ^ 18 = 2 ^ k * 2 ^ (18 - k) := by
    rw [← pow_add]
    congr 1
    omega
  have hfloor : GPUParticle.FloorParticleCount (2 ^ k) (2 ^ 18) = 2 ^ 18 := by
    rw [floorCount_eq (2 ^ k) (2 ^ 18) (by decide)]
    apply Nat.mul_div_cancel'
    exact Dvd.intro _ hsplit.symm
  have hmax : GPUParticle.kMaxParticleCount = 2 ^ 18 := by decide
  refine ⟨?_, by decide, ?_⟩
  · rw [hmax]; exact hfloor
  · rw [hmax]; exact hfloor

/-- C5 at `W = 256 = 2 ^ 8`. -/
theorem C5_FloorParticleCount_capacity_witness :
    (∃ k : Nat, 256 = 2 ^ k) ∧ 1 ≤ 256 ∧ 256 ≤ 2 ^ 18 ∧
    (GPUParticle.FloorParticleCount 256 GPUParticle.kMaxParticleCount
      = GPUParticle.kMaxParticleCount ∧
     GPUParticle.kMaxParticleCount = 262144 ∧
     GPUParticle.FloorParticleCount 256 GPUParticle.kMaxParticleCount = 2 ^ 18) :=
  ⟨⟨8, by decide⟩, by decide, by decide,
    C5_FloorParticleCount_capacity 256 ⟨8, by decide⟩ (by decide) (by decide)⟩

/-- C6: for `W ≥ 1` and a 32-bit particle count `n` with
`FloorParticleCount n + W - 1 < 2 ^ 32`, the group count of the rounded pool is
`n / W` and its threads cover the rounded pool exactly: no thread index is at
or past the rounded capacity. -/
theorem C6_groups_cover_rounded_pool (W n : Nat) (hW : 1 ≤ W) (hn : n < 2 ^ 32)
    (hsum : GPUParticle.FloorParticleCount W n + W - 1 < 2 ^ 32) :
    GPUParticle.GetThreadsGroupCount W (GPUParticle.FloorParticleCount W n) = n / W ∧
    GPUParticle.GetThreadsGroupCount W (GPUParticle.FloorParticleCount W n) * W
      = GPUParticle.FloorParticleCount W n ∧
    (∀ t : Nat,
      t < GPUParticle.GetThreadsGroupCount W (GPUParticle.FloorParticleCount W n) * W →
      t < GPUParticle.FloorParticleCount W n) := by
  have hf := floorCount_eq W n hn
  have hg : GPUParticle.GetThreadsGroupCount W (GPUParticle.FloorParticleCount W n)
      = n / W := by
    rw [groupCount_of_lt W _ hW hsum, hf]
    have hrw : W * (n / W) + W - 1 = (W - 1) + W * (n / W) := by omega
    rw [hrw, Nat.add_mul_div_left _ _ (show 0 < W by omega),
      Nat.div_eq_of_lt (show W - 1 < W by omega), Nat.zero_add]
  have hmul : GPUParticle.GetThreadsGroupCount W (GPUParticle.FloorParticleCount W n) * W
      = GPUParticle.FloorParticleCount W n := by
    rw [hg, hf, Nat.mul_comm]
  refine ⟨hg, hmul, ?_⟩
  intro t ht
  rw [hmul] at ht
  exact ht

/-- C6 at `W = 256`, `n = 1000`: three groups cover the rounded pool of `768`. -/
theorem C6_groups_cover_rounded_pool_witness :
    1 ≤ 256 ∧ 1000 < 2 ^ 32 ∧ GPUParticle.FloorParticleCount 256 1000 + 256 - 1 < 2 ^ 32 ∧
    (GPUParticle.GetThreadsGroupCount 256 (GPUParticle.FloorParticleCount 256 1000)
      = 1000 / 256 ∧
     GPUParticle.GetThreadsGroupCount 256 (GPUParticle.FloorParticleCount 256 1000) * 256
      = GPUParticle.FloorParticleCount 256 1000 ∧
     (∀ t : Nat,
      t < GPUParticle.GetThreadsGroupCount 256 (GPUParticle.FloorParticleCount 256 1000) * 256 →
      t < GPUParticle.FloorParticleCount 256 1000)) :=
  ⟨by decide, by decide, by decide,
    C6_groups_cover_rounded_pool 256 1000 (by decide) (by decide) (by decide)⟩

/-! ## Compile-time limits -/

/-- C4: `kMaxParticleCount = 1 << 18 = 262144` and
`kBatchEmitCount = max(256, kMaxParticleCount >> 4) = max(256, 262144 / 16) = 16384`;
hence `kBatchEmitCount ≤ kMaxParticleCount` and
`kMaxParticleCount = 16 * kBatchEmitCount`. -/
theorem C4_compile_time_limits :
    GPUParticle.kMaxParticleCount = 1 <<< 18 ∧
    GPUParticle.kMaxParticleCount = 262144 ∧
    GPUParticle.kBatchEmitCount = max 256 (GPUParticle.kMaxParticleCount >>> 4) ∧
    GPUParticle.kBatchEmitCount = max 256 (262144 / 16) ∧
    GPUParticle.kBatchEmitCount = 16384 ∧
    GPUParticle.kBatchEmitCount ≤ GPUParticle.kMaxParticleCount ∧
    GPUParticle.kMaxParticleCount = 16 * GPUParticle.kBatchEmitCount := by
  refine ⟨by decide, by decide, by decide, by decide, by decide, by decide, by decide⟩

/-! ## Emission clamping -/

/-- C3: for every requested count `c` and live count `L ≤ capacity`, the live
count after the emission stage is `min (L + min c kBatchEmitCount) capacity`;
it never exceeds the capacity, and a request above the remaining headroom
fills the pool to the capacity, as a plain value and not an error. -/
theorem C3_emission_clamps (capacity L c : Nat) (hL : L ≤ capacity) :
    GPUParticle._emission capacity L c
      = min (L + min c GPUParticle.kBatchEmitCount) capacity ∧
    GPUParticle._emission capacity L c ≤ capacity ∧
    L ≤ GPUParticle._emission capacity L c ∧
    (capacity - L < min c GPUParticle.kBatchEmitCount →
      GPUParticle._emission capacity L c = capacity) := by
  unfold GPUParticle._emission
  simp only []
  refine ⟨?_, ?_, ?_, ?_⟩ <;> split_ifs <;> omega

/-- C3 at the rounded capacity `262144` with `262000` live particles and
`20000` requested: the pool fills to the capacity exactly. -/
theorem C3_emission_clamps_witness :
    262000 ≤ 262144 ∧ GPUParticle._emission 262144 262000 20000 = 262144 ∧
    (GPUParticle._emission 262144 262000 20000
      = min (262000 + min 20000 GPUParticle.kBatchEmitCount) 262144 ∧
     GPUParticle._emission 262144 262000 20000 ≤ 262144 ∧
     262000 ≤ GPUParticle._emission 262144 262000 20000 ∧
     (262144 - 262000 < min 20000 GPUParticle.kBatchEmitCount →
      GPUParticle._emission 262144 262000 20000 = 262144)) :=
  ⟨by decide, by decide, C3_emission_clamps 262144 262000 20000 (by decide)⟩

/-! ## Constructor state and toggles -/

/-- C7: a render issued before any update is a no-op.  In the state built by
the constructor the "simulated" flag is false and the live count is `0`;
sorting is disabled, the orchestrator-level vector-field toggle is true and the
default `simulation_params_.enable_vectorfield` is false.  The guard of `render`
is on the "simulated" flag alone: in every state `s` whose flag is false,
`render` issues no stage and leaves `s` as it is, so this holds for the
constructor's state, for that state after any calls of the two toggles, and a
state issues a stage only if its flag is set. -/
theorem C7_render_before_update_is_noop {RandomBuffer VectorField : Type}
    (randbuffer : RandomBuffer) (vectorfield : VectorField)
    (pgm : Programs) (ulocation : UniformLocations)
    (s : GPUParticle RandomBuffer VectorField) (hs : s.simulated_ = false) (a b : Bool) :
    (GPUParticle.ctor randbuffer vectorfield pgm ulocation).simulated_ = false ∧
    (GPUParticle.ctor randbuffer vectorfield pgm ulocation).num_alive_particles_ = 0 ∧
    (GPUParticle.ctor randbuffer vectorfield pgm ulocation).render
      = (GPUParticle.ctor randbuffer vectorfield pgm ulocation, []) ∧
    (GPUParticle.ctor randbuffer vectorfield pgm ulocation).enable_sorting_ = false ∧
    (GPUParticle.ctor randbuffer vectorfield pgm ulocation).enable_vectorfield_ = true ∧
    (GPUParticle.ctor randbuffer vectorfield pgm ulocation).simulation_params_.enable_vectorfield
      = false ∧
    s.render = (s, []) ∧
    (((GPUParticle.ctor randbuffer vectorfield pgm ulocation).enable_sorting
        a).enable_vectorfield b).render
      = (((GPUParticle.ctor randbuffer vectorfield pgm ulocation).enable_sorting
          a).enable_vectorfield b, []) ∧
    (∀ t : GPUParticle RandomBuffer VectorField, t.render.2 ≠ [] → t.simulated_ = true) := by
  have hguard : ∀ t : GPUParticle RandomBuffer VectorField,
      t.simulated_ = false → t.render = (t, []) := by
    intro t ht
    unfold GPUParticle.render
    rw [ht]
    rfl
  refine ⟨rfl, rfl, rfl, rfl, rfl, rfl, hguard s hs, hguard _ rfl, ?_⟩
  intro t hne
  cases ht : t.simulated_ with
  | true => rfl
  | false =>
    rw [hguard t ht] at hne
    exact absurd rfl hne

/-- C7 at an object with sorting on, the vector field off and `4096` live
particles that was never updated: `render` still issues nothing. -/
theorem C7_render_before_update_is_noop_witness :
    GPUParticle.sample.simulated_ = false ∧
    GPUParticle.sample.enable_sorting_ = true ∧
    GPUParticle.sample.num_alive_particles_ = 4096 ∧
    GPUParticle.sample.render = (GPUParticle.sample, []) :=
  ⟨rfl, rfl, rfl,
    (C7_render_before_update_is_noop () () Programs.sample UniformLocations.sample
      GPUParticle.sample rfl true false).2.2.2.2.2.2.1⟩

/-- C8: `enable_sorting b` sets the sorting flag to `b`, `enable_vectorfield b`
sets the vector-field flag to `b`, each leaves every other member as it was
(`simulation_params_.enable_vectorfield` included); a later call overrides an
earlier one and repeating a call changes nothing. -/
theorem C8_toggles_frame {RandomBuffer VectorField : Type}
    (s : GPUParticle RandomBuffer VectorField) (a b : Bool) :
    ((s.enable_sorting b).enable_sorting_ = b ∧
     (s.enable_sorting b).enable_vectorfield_ = s.enable_vectorfield_ ∧
     (s.enable_sorting b).simulated_ = s.simulated_ ∧
     (s.enable_sorting b).num_alive_particles_ = s.num_alive_particles_ ∧
     (s.enable_sorting b).rendering_params_ = s.rendering_params_ ∧
     (s.enable_sorting b).simulation_params_ = s.simulation_params_ ∧
     (s.enable_sorting b).simulation_params_.enable_vectorfield
       = s.simulation_params_.enable_vectorfield ∧
     (s.enable_sorting b).pbuffer_ = s.pbuffer_ ∧
     (s.enable_sorting b).randbuffer_ = s.randbuffer_ ∧
     (s.enable_sorting b).vectorfield_ = s.vectorfield_ ∧
     (s.enable_sorting b).pgm_ = s.pgm_ ∧
     (s.enable_sorting b).ulocation_ = s.ulocation_ ∧
     (s.enable_sorting b).gl_indirect_buffer_id_ = s.gl_indirect_buffer_id_ ∧
     (s.enable_sorting b).gl_dp_buffer_id_ = s.gl_dp_buffer_id_ ∧
     (s.enable_sorting b).gl_sort_indices_buffer_id_ = s.gl_sort_indices_buffer_id_ ∧
     (s.enable_sorting b).vao_ = s.vao_ ∧
     (s.enable_sorting b).query_time_ = s.query_time_) ∧
    ((s.enable_vectorfield b).enable_vectorfield_ = b ∧
     (s.enable_vectorfield b).enable_sorting_ = s.enable_sorting_ ∧
     (s.enable_vectorfield b).simulated_ = s.simulated_ ∧
     (s.enable_vectorfield b).num_alive_particles_ = s.num_alive_particles_ ∧
     (s.enable_vectorfield b).rendering_params_ = s.rendering_params_ ∧
     (s.enable_vectorfield b).simulation_params_ = s.simulation_params_ ∧
     (s.enable_vectorfield b).simulation_params_.enable_vectorfield
       = s.simulation_params_.enable_vectorfield ∧
     (s.enable_vectorfield b).pbuffer_ = s.pbuffer_ ∧
     (s.enable_vectorfield b).randbuffer_ = s.randbuffer_ ∧
     (s.enable_vectorfield b).vectorfield_ = s.vectorfield_ ∧
     (s.enable_vectorfield b).pgm_ = s.pgm_ ∧
     (s.enable_vectorfield b).ulocation_ = s.ulocation_ ∧
     (s.enable_vectorfield b).gl_indirect_buffer_id_ = s.gl_indirect_buffer_id_ ∧
     (s.enable_vectorfield b).gl_dp_buffer_id_ = s.gl_dp_buffer_id_ ∧
     (s.enable_vectorfield b).gl_sort_indices_buffer_id_ = s.gl_sort_indices_buffer_id_ ∧
     (s.enable_vectorfield b).vao_ = s.vao_ ∧
     (s.enable_vectorfield b).query_time_ = s.query_time_) ∧
    (s.enable_sorting a).enable_sorting b = s.enable_sorting b ∧
    (s.enable_vectorfield a).enable_vectorfield b = s.enable_vectorfield b ∧
    (s.enable_sorting b).enable_sorting b = s.enable_sorting b ∧
    (s.enable_vectorfield b).enable_vectorfield b = s.enable_vectorfield b :=
  ⟨⟨rfl, rfl, rfl, rfl, rfl, rfl, rfl, rfl, rfl, rfl, rfl, rfl, rfl, rfl, rfl, rfl, rfl⟩,
   ⟨rfl, rfl, rfl, rfl, rfl, rfl, rfl, rfl, rfl, rfl, rfl, rfl, rfl, rfl, rfl, rfl, rfl⟩,
   rfl, rfl, rfl, rfl⟩

/-! ## Default parameters -/

/-- C9: the default `SimulationParameters_t` has the sphere emitter,
`time_step_factor = 1`, `min_age = 50` and `max_age = 100`, so
`0 < min_age ≤ max_age` and the age interval is non-empty; the default
`RenderingParameters_t` has `min_size = 0.75 ≤ max_size = 25`. -/
theorem C9_default_parameters :
    SimulationParameters_t.defaults.emitter_type = EmitterType.EMITTER_SPHERE ∧
    SimulationParameters_t.defaults.time_step_factor = 1 ∧
    SimulationParameters_t.defaults.min_age = 50 ∧
    SimulationParameters_t.defaults.max_age = 100 ∧
    0 < SimulationParameters_t.defaults.min_age ∧
    SimulationParameters_t.defaults.min_age ≤ SimulationParameters_t.defaults.max_age ∧
    (Set.Icc SimulationParameters_t.defaults.min_age
      SimulationParameters_t.defaults.max_age).Nonempty ∧
    RenderingParameters_t.defaults.min_size = 3 / 4 ∧
    RenderingParameters_t.defaults.max_size = 25 ∧
    RenderingParameters_t.defaults.min_size ≤ RenderingParameters_t.defaults.max_size := by
  have hmin : SimulationParameters_t.defaults.min_age = 50 := rfl
  have hmax : SimulationParameters_t.defaults.max_age = 100 := rfl
  have hlo : RenderingParameters_t.defaults.min_size = 3 / 4 := rfl
  have hhi : RenderingParameters_t.defaults.max_size = 25 := rfl
  refine ⟨rfl, rfl, hmin, hmax, ?_, ?_, ?_, hlo, hhi, ?_⟩
  · rw [hmin]; norm_num
  · rw [hmin, hmax]; norm_num
  · rw [Set.nonempty_Icc, hmin, hmax]; norm_num
  · rw [hlo, hhi]; norm_num

end Sparkle
